import Mathlib

/-!
Verification development for the photo-template editor and generation
workflow implemented in `src/src/App.tsx` and the generation view in
`src/unnamed/part_000` (TemplateGenerationView).

Numbers are modelled as `Int`: all coordinates manipulated by the source
are produced by subtraction, `Math.min` and `Math.abs` on pointer
coordinates, and the serialized form is `JSON.stringify` of an object with
the four numeric fields.  The serializer below produces exactly the
canonical `JSON.stringify` output for integer-valued rectangles, and the
deserializer parses exactly that canonical form, returning `none` where
`JSON.parse` would throw (or not yield a rectangle of this shape).
Exceptions are modelled by `Option`: a `none` result of `deserializeRect`
stands for the `JSON.parse` exception caught in `switchToEditMode`.
-/

/-- Geometry of a crop region: the `{ x, y, width, height }` record used for
`cropRect` and `cropNumberRect` in `App.tsx`. -/
structure Rect where
  x : Int
  y : Int
  width : Int
  height : Int
deriving DecidableEq

/-- A canvas-local pointer position (`e.clientX - rect.left`,
`e.clientY - rect.top` in `App.tsx`). -/
structure Point where
  x : Int
  y : Int
deriving DecidableEq

/-- The character for a single decimal digit `d` (0 ≤ d ≤ 9). -/
def digitToChar (d : Nat) : Char := Char.ofNat (48 + d)

/-- Whether a character is a decimal digit. -/
def isDigitC (c : Char) : Bool := 48 ≤ c.toNat && c.toNat ≤ 57

/-- The numeric value of a decimal digit character. -/
def digitVal (c : Char) : Nat := c.toNat - 48

/-- Decimal digits of `n`, most significant first; the first argument is
recursion fuel (any fuel above `n` gives the digits of `n`). -/
def natCharsAux : Nat → Nat → List Char
  | _, 0 => []
  | n, fuel + 1 =>
    if n < 10 then [digitToChar n]
    else natCharsAux (n / 10) fuel ++ [digitToChar (n % 10)]

/-- Decimal representation of a natural number, as JavaScript prints it. -/
def natChars (n : Nat) : List Char := natCharsAux n (n + 1)

/-- Decimal representation of an integer, as JavaScript `JSON.stringify`
prints an integral number (a leading minus sign for negatives, no sign for
zero and positives). -/
def intChars (i : Int) : List Char :=
  if i < 0 then '-' :: natChars i.natAbs else natChars i.toNat

/-- The literal token that opens the serialized rectangle and introduces the
first field. -/
def keyX : List Char := ['\x7b', '"', 'x', '"', ':']

/-- The literal token between the `x` and `y` fields. -/
def keyY : List Char := [',', '"', 'y', '"', ':']

/-- The literal token between the `y` and `width` fields. -/
def keyW : List Char := [',', '"', 'w', 'i', 'd', 't', 'h', '"', ':']

/-- The literal token between the `width` and `height` fields. -/
def keyH : List Char := [',', '"', 'h', 'e', 'i', 'g', 'h', 't', '"', ':']

/-- The closing brace of the serialized rectangle. -/
def keyClose : List Char := ['\x7d']

/-- Character-level serialization of a rectangle: exactly the characters of
`JSON.stringify({x, y, width, height})` for integer field values. -/
def serializeChars (r : Rect) : List Char :=
  keyX ++ (intChars r.x ++ (keyY ++ (intChars r.y ++
    (keyW ++ (intChars r.width ++ (keyH ++ (intChars r.height ++ keyClose)))))))

/-- The serialized textual form of a rectangle, as produced on commit
(`handleMouseUp`, App.tsx lines 346-360) and on submit (`handleSubmit`,
App.tsx lines 224-228) via `JSON.stringify`. -/
def serializeRect (r : Rect) : String := String.mk (serializeChars r)

/-- The longest prefix of decimal digits of a character list, together with
the rest of the list. -/
def takeDigits : List Char → List Char × List Char
  | [] => ([], [])
  | c :: cs =>
    if isDigitC c then
      let p := takeDigits cs
      (c :: p.1, p.2)
    else ([], c :: cs)

/-- Numeric value of a list of decimal digit characters. -/
def digitsToNat (ds : List Char) : Nat :=
  ds.foldl (fun a c => a * 10 + digitVal c) 0

/-- Parse a natural number from the front of a character list; fails if no
digit is present. -/
def parseNat (cs : List Char) : Option (Nat × List Char) :=
  if (takeDigits cs).1 = [] then none
  else some (digitsToNat (takeDigits cs).1, (takeDigits cs).2)

/-- Parse an optionally negated integer from the front of a character
list. -/
def parseInt (cs : List Char) : Option (Int × List Char) :=
  match cs with
  | [] => none
  | c :: rest =>
    if c = '-' then
      match parseNat rest with
      | none => none
      | some p => some (-(p.1 : Int), p.2)
    else
      match parseNat (c :: rest) with
      | none => none
      | some p => some ((p.1 : Int), p.2)

/-- Consume an exact literal token from the front of the input; fails on any
mismatch. -/
def parseExact : List Char → List Char → Option (List Char)
  | [], cs => some cs
  | _ :: _, [] => none
  | p :: ps, c :: cs => if c = p then parseExact ps cs else none

/-- Parse the canonical serialized rectangle form; `none` models the
`JSON.parse` exception (or a value that is not a rectangle record). -/
def parseRectChars (cs : List Char) : Option Rect :=
  (parseExact keyX cs).bind fun cs1 =>
  (parseInt cs1).bind fun p1 =>
  (parseExact keyY p1.2).bind fun cs2 =>
  (parseInt cs2).bind fun p2 =>
  (parseExact keyW p2.2).bind fun cs3 =>
  (parseInt cs3).bind fun p3 =>
  (parseExact keyH p3.2).bind fun cs4 =>
  (parseInt cs4).bind fun p4 =>
  (parseExact keyClose p4.2).bind fun cs5 =>
  if cs5 = [] then some ⟨p1.1, p2.1, p3.1, p4.1⟩ else none

/-- The parse used on hydration (`JSON.parse` in `switchToEditMode`,
App.tsx lines 176-195), restricted to the canonical rectangle encoding. -/
def deserializeRect (s : String) : Option Rect := parseRectChars s.data

/-- True when the head of the list (if any) is not a decimal digit; the
condition under which a greedy number parse stops exactly at a token
boundary. -/
def noDigitHead : List Char → Bool
  | [] => true
  | c :: _ => !isDigitC c

/-- The four view screens of the app (`ViewMode` in App.tsx line 8). -/
inductive ViewMode
  | list
  | create
  | edit
  | generate
deriving DecidableEq

/-- Which crop region subsequent drags affect (`currentCropMode`,
App.tsx line 28). -/
inductive CropMode
  | photo
  | number
deriving DecidableEq

/-- The user-facing messages set by the modelled operations.  The source
stores French strings in the `message` state; the claims only depend on
which message is shown, so the strings are modelled by this enumeration. -/
inductive Msg
  | blank
  | noTemplateSelected
  | noFolderSelected
  | genSuccess
  | genError
deriving DecidableEq

/-- The `formData` record (App.tsx lines 14-19): the draft template's
textual fields, with the two crop rectangles in serialized form. -/
structure FormData where
  name : String
  crop_photo : String
  crop_number : String
  template_img : String
deriving DecidableEq

/-- A stored template as loaded from the external store (`PhotoTemplate`). -/
structure PhotoTemplate where
  id : Int
  name : String
  crop_photo : String
  crop_number : String
  template_img : String
deriving DecidableEq

/-- The React state of `App` relevant to the specified behavior, one field
per `useState` hook (App.tsx lines 11-37). -/
structure AppState where
  currentMode : ViewMode
  editingTemplate : Option PhotoTemplate
  formData : FormData
  message : Msg
  uploadedImage : Option String
  isDrawing : Bool
  cropRect : Rect
  cropNumberRect : Rect
  currentCropMode : CropMode
  startPos : Point
  selectedTemplate : Option PhotoTemplate
  selectedImageFolder : String
  generationProgress : Int
  isGenerating : Bool
  archivePath : String
deriving DecidableEq

/-- The initial state given by the `useState` initializers. -/
def initState : AppState where
  currentMode := ViewMode.list
  editingTemplate := none
  formData := ⟨"", "", "", ""⟩
  message := Msg.blank
  uploadedImage := none
  isDrawing := false
  cropRect := ⟨0, 0, 0, 0⟩
  cropNumberRect := ⟨0, 0, 0, 0⟩
  currentCropMode := CropMode.photo
  startPos := ⟨0, 0⟩
  selectedTemplate := none
  selectedImageFolder := ""
  generationProgress := 0
  isGenerating := false
  archivePath := ""

/-- `resetForm` (App.tsx lines 140-153): clears the draft fields, the crop
rectangles, the uploaded image and the crop mode.  It does not touch the
generation fields (`generationProgress`, `isGenerating`, `archivePath`) nor
the generate-screen selections. -/
def resetForm (s : AppState) : AppState :=
  { s with
    formData := ⟨"", "", "", ""⟩
    editingTemplate := none
    message := Msg.blank
    uploadedImage := none
    cropRect := ⟨0, 0, 0, 0⟩
    cropNumberRect := ⟨0, 0, 0, 0⟩
    currentCropMode := CropMode.photo }

/-- The read side effects a transition can trigger on the external store. -/
inductive StoreCall
  | getPhotoTemplates
deriving DecidableEq

/-- `switchToListMode` (App.tsx lines 199-202) together with the
`useEffect` on `currentMode` (lines 92-96): resets the form, switches to the
list screen, and-because the mode changed to `list`-triggers a reload of
the template collection. -/
def switchToListMode (s : AppState) : AppState × List StoreCall :=
  ({ resetForm s with currentMode := ViewMode.list },
   if s.currentMode = ViewMode.list then [] else [StoreCall.getPhotoTemplates])

/-- `switchToEditMode` (App.tsx lines 160-197): loads the template fields
into the draft, and, only when `template_img` is non-empty, sets the
uploaded-image URL and hydrates each crop rectangle from its serialized
string.  Each non-empty string is parsed independently inside a
`try`/`catch`; a parse failure resets only that rectangle to zero.  An
empty string is skipped (the `if (template.crop_photo)` truthiness guard)
and leaves the rectangle at its prior value. -/
def switchToEditMode (s : AppState) (t : PhotoTemplate) : AppState :=
  let s1 : AppState :=
    { s with
      formData := ⟨t.name, t.crop_photo, t.crop_number, t.template_img⟩
      editingTemplate := some t
      currentMode := ViewMode.edit
      message := Msg.blank }
  if t.template_img = "" then s1
  else
    let s2 : AppState :=
      { s1 with uploadedImage := some ("asset://localhost/" ++ t.template_img) }
    let s3 : AppState :=
      if t.crop_photo = "" then s2
      else
        match deserializeRect t.crop_photo with
        | some r => { s2 with cropRect := r }
        | none => { s2 with cropRect := ⟨0, 0, 0, 0⟩ }
    if t.crop_number = "" then s3
    else
      match deserializeRect t.crop_number with
      | some r => { s3 with cropNumberRect := r }
      | none => { s3 with cropNumberRect := ⟨0, 0, 0, 0⟩ }

/-- `handleMouseDown` (App.tsx lines 304-320): start a drag, record the
anchor, and reset the active region's rectangle to a zero-size rectangle at
the pointer. -/
def handleMouseDown (s : AppState) (p : Point) : AppState :=
  let s1 : AppState := { s with isDrawing := true, startPos := p }
  match s.currentCropMode with
  | CropMode.photo => { s1 with cropRect := ⟨p.x, p.y, 0, 0⟩ }
  | CropMode.number => { s1 with cropNumberRect := ⟨p.x, p.y, 0, 0⟩ }

/-- `handleMouseMove` (App.tsx lines 322-344): ignored unless a drag is
active; otherwise recompute the active region's rectangle from the anchor
and the current pointer with `Math.min` and `Math.abs`. -/
def handleMouseMove (s : AppState) (p : Point) : AppState :=
  if s.isDrawing = false then s
  else
    let newRect : Rect :=
      ⟨min s.startPos.x p.x, min s.startPos.y p.y,
       |p.x - s.startPos.x|, |p.y - s.startPos.y|⟩
    match s.currentCropMode with
    | CropMode.photo => { s with cropRect := newRect }
    | CropMode.number => { s with cropNumberRect := newRect }

/-- `handleMouseUp` (App.tsx lines 346-360): end the drag and commit the
active region's rectangle into the draft's serialized field. -/
def handleMouseUp (s : AppState) : AppState :=
  let s1 : AppState := { s with isDrawing := false }
  match s.currentCropMode with
  | CropMode.photo =>
    { s1 with formData := { s1.formData with crop_photo := serializeRect s.cropRect } }
  | CropMode.number =>
    { s1 with formData := { s1.formData with crop_number := serializeRect s.cropNumberRect } }

/-- The rectangle of the region that drags currently affect. -/
def activeRect (s : AppState) : Rect :=
  match s.currentCropMode with
  | CropMode.photo => s.cropRect
  | CropMode.number => s.cropNumberRect

/-- A region per the spec is defined iff its width and height are strictly
positive. -/
def RectDefined (r : Rect) : Prop := 0 < r.width ∧ 0 < r.height

/-- The two named crop regions. -/
inductive RegionKind
  | photo
  | number
deriving DecidableEq

/-- Result of the pre-store region check on submit. -/
inductive SubmitCheck
  | fail (region : RegionKind)
  | ok (cropPhoto cropNumber : String)
deriving DecidableEq

/-- The region validation performed by `handleSubmit` (App.tsx lines
213-228): the photo rectangle is checked first with
`width === 0 || height === 0`, then the number rectangle; on success the
two rectangles are committed in serialized form. -/
def validateForSubmit (rp rn : Rect) : SubmitCheck :=
  if rp.width = 0 ∨ rp.height = 0 then SubmitCheck.fail RegionKind.photo
  else if rn.width = 0 ∨ rn.height = 0 then SubmitCheck.fail RegionKind.number
  else SubmitCheck.ok (serializeRect rp) (serializeRect rn)

/-- Overall outcome of `handleSubmit` (App.tsx lines 204-228) up to the
store call. -/
inductive SubmitOutcome
  | missingNameOrImage
  | photoRegionUndefined
  | numberRegionUndefined
  | store (cropPhoto cropNumber : String)
deriving DecidableEq

/-- `handleSubmit` (App.tsx lines 204-228): the name/image presence check
followed by the region validation; on success the store receives the
serialized rectangles. -/
def handleSubmit (s : AppState) : SubmitOutcome :=
  if s.formData.name = "" ∨ s.formData.template_img = "" then
    SubmitOutcome.missingNameOrImage
  else
    match validateForSubmit s.cropRect s.cropNumberRect with
    | SubmitCheck.fail RegionKind.photo => SubmitOutcome.photoRegionUndefined
    | SubmitCheck.fail RegionKind.number => SubmitOutcome.numberRegionUndefined
    | SubmitCheck.ok a b => SubmitOutcome.store a b

/-- One invocation of the external generation engine
(`invoke("generate_images_with_template", ...)`, App.tsx lines 64-67). -/
structure EngineCall where
  templateId : Int
  imageFolderPath : String
deriving DecidableEq

/-- The asynchronous outcome of an engine invocation. -/
inductive EngineResult
  | success (archivePath : String)
  | failure
deriving DecidableEq

/-- The synchronous prefix of `generateImages` (App.tsx lines 49-62): the
two local precondition checks, then-when both pass-the transition into the
generating state together with the engine invocation.  The returned list
records the engine calls issued. -/
def generateImagesStart (s : AppState) : AppState × List EngineCall :=
  match s.selectedTemplate with
  | none => ({ s with message := Msg.noTemplateSelected }, [])
  | some t =>
    if s.selectedImageFolder = "" then
      ({ s with message := Msg.noFolderSelected }, [])
    else
      ({ s with isGenerating := true, generationProgress := 0, message := Msg.blank },
       [⟨t.id, s.selectedImageFolder⟩])

/-- The resumption of `generateImages` when the engine promise settles
(App.tsx lines 63-75): store the archive path and a success message, or an
error message, and in either case clear the generating flag. -/
def generateImagesResolve (s : AppState) (res : EngineResult) : AppState :=
  match res with
  | EngineResult.success p =>
    { s with archivePath := p, message := Msg.genSuccess, isGenerating := false }
  | EngineResult.failure =>
    { s with message := Msg.genError, isGenerating := false }

/-- Delivery of one `generation-progress` event (App.tsx lines 98-121): the
listener exists exactly while the generate screen is shown, and its handler
stores the payload unconditionally; off the generate screen the listener
has been torn down and the event is dropped. -/
def deliverProgress (s : AppState) (v : Int) : AppState :=
  if s.currentMode = ViewMode.generate then { s with generationProgress := v } else s

/-- The `disabled` condition of the start-generation control
(`part_000` line 102): disabled when no template or folder is chosen or a
job is generating. -/
def generateButtonDisabled (s : AppState) : Bool :=
  s.selectedTemplate.isNone || s.selectedImageFolder == "" || s.isGenerating

/-- A state on the generate screen whose job has resolved successfully,
obtained by resolving an in-flight job. -/
def resolvedGenState : AppState :=
  generateImagesResolve
    { initState with
      currentMode := ViewMode.generate
      isGenerating := true
      generationProgress := 100
      selectedTemplate := some ⟨1, "n", "", "", "i"⟩
      selectedImageFolder := "/photos" }
    (EngineResult.success "/out/archive.zip")

/-- A state on the generate screen with a job still generating. -/
def generatingState : AppState :=
  { initState with currentMode := ViewMode.generate, isGenerating := true }

/-- A state on the generate screen with a job in flight and valid inputs
for a second start. -/
def inflightState : AppState :=
  { initState with
    currentMode := ViewMode.generate
    isGenerating := true
    selectedTemplate := some ⟨1, "n", "", "", "i"⟩
    selectedImageFolder := "/photos" }

/-- A generate-screen state carrying finished-job data, used to observe
what a transition back to the list preserves. -/
def postGenState : AppState :=
  { initState with
    currentMode := ViewMode.generate
    generationProgress := 60
    archivePath := "/out/archive.zip"
    selectedImageFolder := "/photos" }

/-- Digit characters produced by `digitToChar` are decimal digits. -/
theorem digitToChar_isDigit : ∀ d : Nat, d < 10 → isDigitC (digitToChar d) = true := by
  decide

/-- `digitVal` inverts `digitToChar` on single digits. -/
theorem digitVal_digitToChar : ∀ d : Nat, d < 10 → digitVal (digitToChar d) = d := by
  decide

/-- Appending one digit multiplies the accumulated value by ten. -/
theorem digitsToNat_append_single (l : List Char) (c : Char) :
    digitsToNat (l ++ [c]) = digitsToNat l * 10 + digitVal c := by
  simp [digitsToNat, List.foldl_append]

/-- With fuel above `n`, `natCharsAux` yields a non-empty all-digit list
whose value is `n`. -/
theorem natCharsAux_spec : ∀ fuel n : Nat, n < fuel →
    natCharsAux n fuel ≠ [] ∧
    (∀ c ∈ natCharsAux n fuel, isDigitC c = true) ∧
    digitsToNat (natCharsAux n fuel) = n := by
  intro fuel
  induction fuel with
  | zero => intro n h; omega
  | succ f ih =>
    intro n h
    by_cases h10 : n < 10
    · refine ⟨by simp [natCharsAux, h10], ?_, ?_⟩
      · intro c hc
        simp [natCharsAux, h10] at hc
        rw [hc]
        exact digitToChar_isDigit n h10
      · simp [natCharsAux, h10, digitsToNat, digitVal_digitToChar n h10]
    · have hlt : n / 10 < f := by omega
      obtain ⟨hne, hdig, hval⟩ := ih (n / 10) hlt
      refine ⟨by simp [natCharsAux, h10], ?_, ?_⟩
      · intro c hc
        simp [natCharsAux, h10, List.mem_append] at hc
        rcases hc with hc | hc
        · exact hdig c hc
        · rw [hc]
          exact digitToChar_isDigit (n % 10) (by omega)
      · have : natCharsAux n (f + 1) =
            natCharsAux (n / 10) f ++ [digitToChar (n % 10)] := by
          simp [natCharsAux, h10]
        rw [this, digitsToNat_append_single, hval,
          digitVal_digitToChar (n % 10) (by omega)]
        omega

/-- The printed form of a natural number is never empty. -/
theorem natChars_ne_nil (n : Nat) : natChars n ≠ [] :=
  (natCharsAux_spec (n + 1) n (by omega)).1

/-- Every character of the printed form of a natural number is a digit. -/
theorem natChars_digits (n : Nat) : ∀ c ∈ natChars n, isDigitC c = true :=
  (natCharsAux_spec (n + 1) n (by omega)).2.1

/-- Reading back the printed digits recovers the number. -/
theorem digitsToNat_natChars (n : Nat) : digitsToNat (natChars n) = n :=
  (natCharsAux_spec (n + 1) n (by omega)).2.2

/-- Greedy digit taking stops exactly at the first non-digit. -/
theorem takeDigits_append (ds rest : List Char)
    (hds : ∀ c ∈ ds, isDigitC c = true) (h : noDigitHead rest = true) :
    takeDigits (ds ++ rest) = (ds, rest) := by
  induction ds with
  | nil =>
    cases rest with
    | nil => rfl
    | cons c cs =>
      have hc : isDigitC c = false := by
        simpa [noDigitHead] using h
      simp [takeDigits, hc]
  | cons d ds ih =>
    have hd : isDigitC d = true := hds d (List.mem_cons_self d ds)
    have ih2 := ih fun c hc => hds c (List.mem_cons_of_mem d hc)
    simp [takeDigits, hd, ih2]

/-- Parsing the printed form of a natural number followed by a non-digit
remainder yields the number and the remainder. -/
theorem parseNat_append (n : Nat) (rest : List Char) (h : noDigitHead rest = true) :
    parseNat (natChars n ++ rest) = some (n, rest) := by
  simp only [parseNat, takeDigits_append (natChars n) rest (natChars_digits n) h]
  simp [natChars_ne_nil n, digitsToNat_natChars]

/-- Parsing the printed form of an integer followed by a non-digit
remainder yields the integer and the remainder. -/
theorem parseInt_intChars (i : Int) (rest : List Char) (h : noDigitHead rest = true) :
    parseInt (intChars i ++ rest) = some (i, rest) := by
  by_cases hi : i < 0
  · have he : intChars i = '-' :: natChars i.natAbs := by
      simp [intChars, hi]
    rw [he, List.cons_append]
    simp only [parseInt, if_pos rfl, parseNat_append i.natAbs rest h]
    have hv : -((i.natAbs : Int)) = i := by omega
    rw [hv]
    simp
  · have he : intChars i = natChars i.toNat := by
      simp [intChars, hi]
    obtain ⟨c, t, hct⟩ : ∃ c t, natChars i.toNat = c :: t := by
      cases hnc : natChars i.toNat with
      | nil => exact absurd hnc (natChars_ne_nil _)
      | cons c t => exact ⟨c, t, rfl⟩
    have hc : isDigitC c = true := by
      exact natChars_digits i.toNat c (by rw [hct]; exact List.mem_cons_self c t)
    have hcm : c ≠ '-' := by
      intro e
      rw [e] at hc
      exact absurd hc (by decide)
    have hp : parseNat (c :: (t ++ rest)) = some (i.toNat, rest) := by
      rw [← List.cons_append, ← hct]
      exact parseNat_append i.toNat rest h
    rw [he, hct, List.cons_append]
    simp only [parseInt, if_neg hcm, hp]
    have hv : ((i.toNat : Int)) = i := by omega
    rw [hv]

/-- An exact token is consumed from the front of any input that starts with
it. -/
theorem parseExact_append (p rest : List Char) : parseExact p (p ++ rest) = some rest := by
  induction p with
  | nil => rfl
  | cons c cs ih => simp [parseExact, ih]

/-- An exact token parses itself completely. -/
theorem parseExact_self (p : List Char) : parseExact p p = some [] := by
  have h := parseExact_append p []
  simpa using h

/-- The remainder after the `x` field starts with a comma, not a digit. -/
theorem noDigitHead_keyY (rest : List Char) : noDigitHead (keyY ++ rest) = true := rfl

/-- The remainder after the `y` field starts with a comma, not a digit. -/
theorem noDigitHead_keyW (rest : List Char) : noDigitHead (keyW ++ rest) = true := rfl

/-- The remainder after the `width` field starts with a comma, not a digit. -/
theorem noDigitHead_keyH (rest : List Char) : noDigitHead (keyH ++ rest) = true := rfl

/-- The remainder after the `height` field is the closing brace, not a
digit. -/
theorem noDigitHead_keyClose : noDigitHead keyClose = true := rfl

/-- Character-level round trip: parsing the canonical serialization of any
rectangle recovers the rectangle. -/
theorem parseRectChars_serializeChars (r : Rect) :
    parseRectChars (serializeChars r) = some r := by
  obtain ⟨x, y, w, h⟩ := r
  show parseRectChars
      (keyX ++ (intChars x ++ (keyY ++ (intChars y ++
        (keyW ++ (intChars w ++ (keyH ++ (intChars h ++ keyClose)))))))) =
    some ⟨x, y, w, h⟩
  rw [parseRectChars, parseExact_append]
  rw [Option.some_bind, parseInt_intChars x _ (noDigitHead_keyY _), Option.some_bind]
  rw [parseExact_append, Option.some_bind,
    parseInt_intChars y _ (noDigitHead_keyW _), Option.some_bind]
  rw [parseExact_append, Option.some_bind,
    parseInt_intChars w _ (noDigitHead_keyH _), Option.some_bind]
  rw [parseExact_append, Option.some_bind,
    parseInt_intChars h _ noDigitHead_keyClose, Option.some_bind]
  rw [parseExact_self, Option.some_bind]
  rfl

/-- String-level round trip for the serializer and parser used by the
source. -/
theorem deserializeRect_serializeRect (r : Rect) :
    deserializeRect (serializeRect r) = some r :=
  parseRectChars_serializeChars r

/-- C1: for every prior state and every pair of points `p1`, `p2`, the
drag sequence `handleMouseDown p1; handleMouseMove p2; handleMouseUp`
leaves the active region's rectangle equal to
`x = min p1.x p2.x`, `y = min p1.y p2.y`, `width = |p2.x - p1.x|`,
`height = |p2.y - p1.y|`. -/
theorem drag_sequence_active_rect (s : AppState) (p1 p2 : Point) :
    activeRect (handleMouseUp (handleMouseMove (handleMouseDown s p1) p2)) =
      ⟨min p1.x p2.x, min p1.y p2.y, |p2.x - p1.x|, |p2.y - p1.y|⟩ := by
  cases hm : s.currentCropMode <;>
    simp [handleMouseDown, handleMouseMove, handleMouseUp, activeRect, hm]

/-- C2: for every rectangle with non-negative width and height,
deserializing the serialized form (the encoding written on commit/submit,
parsed again on hydration) gives back the rectangle. -/
theorem serialize_roundtrip (r : Rect) (hw : 0 ≤ r.width) (hh : 0 ≤ r.height) :
    deserializeRect (serializeRect r) = some r :=
  deserializeRect_serializeRect r

/-- Witness for C2 at the concrete rectangle `{10, 10, 100, 150}`. -/
theorem serialize_roundtrip_witness :
    0 ≤ (Rect.mk 10 10 100 150).width ∧ 0 ≤ (Rect.mk 10 10 100 150).height ∧
      deserializeRect (serializeRect ⟨10, 10, 100, 150⟩) = some ⟨10, 10, 100, 150⟩ :=
  ⟨by decide, by decide,
    serialize_roundtrip ⟨10, 10, 100, 150⟩ (by decide) (by decide)⟩

/-- C3 counterexample: a template whose `template_img` is the empty string,
whose `crop_photo` is malformed and whose `crop_number` is a valid
encoding of `{1, 2, 3, 4}`.  Hydration leaves the Number region at
`{0, 0, 0, 0}` instead of the parsed rectangle, because the whole parsing
block is guarded by `if (template.template_img)`. -/
theorem hydrate_malformed_counterexample :
    deserializeRect "bad" = none ∧
    deserializeRect (serializeRect ⟨1, 2, 3, 4⟩) = some ⟨1, 2, 3, 4⟩ ∧
    (switchToEditMode initState
        ⟨1, "n", "bad", serializeRect ⟨1, 2, 3, 4⟩, ""⟩).cropNumberRect =
      ⟨0, 0, 0, 0⟩ ∧
    (Rect.mk 0 0 0 0) ≠ ⟨1, 2, 3, 4⟩ := by
  decide

/-- C3 (amended): for a template with a non-empty `template_img`, a
non-empty malformed `crop_photo` and a valid `crop_number`, hydration on
entry to Edit mode sets the Photo region to zero, sets the Number region
to the parsed rectangle, loads the name and image path, and switches to
Edit mode.  The hydration function is total, so no exception propagates. -/
theorem hydrate_partial_failure (s : AppState) (t : PhotoTemplate) (r : Rect)
    (himg : t.template_img ≠ "") (hp : t.crop_photo ≠ "")
    (hbad : deserializeRect t.crop_photo = none)
    (hgood : deserializeRect t.crop_number = some r) :
    (switchToEditMode s t).cropRect = ⟨0, 0, 0, 0⟩ ∧
    (switchToEditMode s t).cropNumberRect = r ∧
    (switchToEditMode s t).formData.name = t.name ∧
    (switchToEditMode s t).formData.template_img = t.template_img ∧
    (switchToEditMode s t).currentMode = ViewMode.edit := by
  have hn : t.crop_number ≠ "" := by
    intro e
    have hnone : deserializeRect "" = none := by decide
    rw [e, hnone] at hgood
    exact Option.noConfusion hgood
  simp [switchToEditMode, himg, hp, hn, hbad, hgood]

/-- Witness for the amended C3 at a concrete template. -/
theorem hydrate_partial_failure_witness :
    (switchToEditMode initState
        ⟨1, "n", "bad", serializeRect ⟨1, 2, 3, 4⟩, "img.png"⟩).cropRect =
      ⟨0, 0, 0, 0⟩ ∧
    (switchToEditMode initState
        ⟨1, "n", "bad", serializeRect ⟨1, 2, 3, 4⟩, "img.png"⟩).cropNumberRect =
      ⟨1, 2, 3, 4⟩ ∧
    (switchToEditMode initState
        ⟨1, "n", "bad", serializeRect ⟨1, 2, 3, 4⟩, "img.png"⟩).formData.name = "n" ∧
    (switchToEditMode initState
        ⟨1, "n", "bad", serializeRect ⟨1, 2, 3, 4⟩, "img.png"⟩).formData.template_img
      = "img.png" ∧
    (switchToEditMode initState
        ⟨1, "n", "bad", serializeRect ⟨1, 2, 3, 4⟩, "img.png"⟩).currentMode =
      ViewMode.edit :=
  hydrate_partial_failure initState
    ⟨1, "n", "bad", serializeRect ⟨1, 2, 3, 4⟩, "img.png"⟩ ⟨1, 2, 3, 4⟩
    (by decide) (by decide) (by decide) (by decide)

/-- C4 counterexample: a job resolved to Succeeded (archive stored,
generating flag cleared) while still on the generate screen; a progress
event with payload 42 still overwrites the stored progress 100, so it is
not dropped. -/
theorem progress_after_resolve_counterexample :
    resolvedGenState.isGenerating = false ∧
    resolvedGenState.archivePath = "/out/archive.zip" ∧
    resolvedGenState.generationProgress = 100 ∧
    (deliverProgress resolvedGenState 42).generationProgress = 42 ∧
    (42 : Int) ≠ 100 := by
  decide

/-- C4 (amended): while the generate screen is shown, a progress event
overwrites the stored progress with its payload regardless of whether the
job has resolved, never changing the generating flag or archive path; an
event delivered on any other screen (the listener having been torn down)
is dropped entirely. -/
theorem progress_event_behavior (s : AppState) (v : Int) :
    (s.currentMode = ViewMode.generate →
      (deliverProgress s v).generationProgress = v ∧
      (deliverProgress s v).isGenerating = s.isGenerating ∧
      (deliverProgress s v).archivePath = s.archivePath) ∧
    (s.currentMode ≠ ViewMode.generate → deliverProgress s v = s) := by
  constructor <;> intro h <;> simp [deliverProgress, h]

/-- Witness for the amended C4: on the generate screen the payload is
stored; on the list screen the event is dropped. -/
theorem progress_event_behavior_witness :
    (deliverProgress resolvedGenState 7).generationProgress = 7 ∧
    deliverProgress initState 7 = initState := by
  constructor
  · exact ((progress_event_behavior resolvedGenState 7).1 (by decide)).1
  · exact (progress_event_behavior initState 7).2 (by decide)

/-- C5: under the Rectangle invariant (non-negative width and height), the
pre-store region check fails iff a region is undefined, names Photo
whenever the Photo region is undefined (checking it before Number), and
otherwise proceeds with the two committed rectangles in serialized form. -/
theorem validateForSubmit_spec (rp rn : Rect)
    (hwp : 0 ≤ rp.width) (hhp : 0 ≤ rp.height)
    (hwn : 0 ≤ rn.width) (hhn : 0 ≤ rn.height) :
    ((∃ k, validateForSubmit rp rn = SubmitCheck.fail k) ↔
      (¬ RectDefined rp ∨ ¬ RectDefined rn)) ∧
    (¬ RectDefined rp → validateForSubmit rp rn = SubmitCheck.fail RegionKind.photo) ∧
    (RectDefined rp → RectDefined rn →
      validateForSubmit rp rn = SubmitCheck.ok (serializeRect rp) (serializeRect rn)) := by
  unfold RectDefined
  by_cases h1 : rp.width = 0 ∨ rp.height = 0
  · rw [validateForSubmit, if_pos h1]
    refine ⟨⟨fun _ => Or.inl (by omega), fun _ => ⟨RegionKind.photo, rfl⟩⟩,
      fun _ => rfl, fun hd1 _ => absurd hd1 (by omega)⟩
  · by_cases h2 : rn.width = 0 ∨ rn.height = 0
    · rw [validateForSubmit, if_neg h1, if_pos h2]
      refine ⟨⟨fun _ => Or.inr (by omega), fun _ => ⟨RegionKind.number, rfl⟩⟩,
        fun hnd => absurd (show 0 < rp.width ∧ 0 < rp.height by omega) hnd,
        fun _ hd2 => absurd hd2 (by omega)⟩
    · rw [validateForSubmit, if_neg h1, if_neg h2]
      refine ⟨⟨fun hex => ?_, fun hor => ?_⟩,
        fun hnd => absurd (show 0 < rp.width ∧ 0 < rp.height by omega) hnd,
        fun _ _ => rfl⟩
      · obtain ⟨k, hk⟩ := hex
        exact SubmitCheck.noConfusion hk
      · rcases hor with hne | hne
        · exact absurd (show 0 < rp.width ∧ 0 < rp.height by omega) hne
        · exact absurd (show 0 < rn.width ∧ 0 < rn.height by omega) hne

/-- Witness for C5 at two concrete defined regions. -/
theorem validateForSubmit_spec_witness :
    ((∃ k, validateForSubmit ⟨0, 0, 2, 3⟩ ⟨1, 1, 4, 5⟩ = SubmitCheck.fail k) ↔
      (¬ RectDefined ⟨0, 0, 2, 3⟩ ∨ ¬ RectDefined ⟨1, 1, 4, 5⟩)) ∧
    (¬ RectDefined ⟨0, 0, 2, 3⟩ →
      validateForSubmit ⟨0, 0, 2, 3⟩ ⟨1, 1, 4, 5⟩ = SubmitCheck.fail RegionKind.photo) ∧
    (RectDefined ⟨0, 0, 2, 3⟩ → RectDefined ⟨1, 1, 4, 5⟩ →
      validateForSubmit ⟨0, 0, 2, 3⟩ ⟨1, 1, 4, 5⟩ =
        SubmitCheck.ok (serializeRect ⟨0, 0, 2, 3⟩) (serializeRect ⟨1, 1, 4, 5⟩)) :=
  validateForSubmit_spec ⟨0, 0, 2, 3⟩ ⟨1, 1, 4, 5⟩
    (by decide) (by decide) (by decide) (by decide)

/-- C6: starting generation with no selected template or an empty source
folder fails locally with the message naming the missing field and issues
zero engine calls. -/
theorem start_input_validation (s : AppState)
    (h : s.selectedTemplate = none ∨ s.selectedImageFolder = "") :
    (generateImagesStart s).2 = [] ∧
    (generateImagesStart s).1.message =
      (if s.selectedTemplate = none then Msg.noTemplateSelected
       else Msg.noFolderSelected) := by
  cases ht : s.selectedTemplate with
  | none => simp [generateImagesStart, ht]
  | some t =>
    have hf : s.selectedImageFolder = "" := by
      rcases h with h | h
      · rw [ht] at h
        exact Option.noConfusion h
      · exact h
    simp [generateImagesStart, ht, hf]

/-- Witness for C6 in the initial state, which has no selected template. -/
theorem start_input_validation_witness :
    (generateImagesStart initState).2 = [] ∧
    (generateImagesStart initState).1.message =
      (if initState.selectedTemplate = none then Msg.noTemplateSelected
       else Msg.noFolderSelected) :=
  start_input_validation initState (Or.inl rfl)

/-- C7 counterexample: with a job already generating and valid inputs,
calling start again issues a second engine call and sets no rejection
message, so the orchestrator does not reject re-entrant starts. -/
theorem reentrant_start_counterexample :
    inflightState.isGenerating = true ∧
    (generateImagesStart inflightState).2 = [⟨1, "/photos"⟩] ∧
    (generateImagesStart inflightState).1.isGenerating = true ∧
    (generateImagesStart inflightState).1.message = Msg.blank := by
  decide

/-- C7 (amended): re-entrancy is prevented only by the UI, whose start
control is disabled whenever a job is generating; the orchestrator
function itself performs no guard and, called with valid inputs while
generating, invokes the engine again. -/
theorem reentrant_start_behavior (s : AppState) (t : PhotoTemplate)
    (hg : s.isGenerating = true) (ht : s.selectedTemplate = some t)
    (hf : s.selectedImageFolder ≠ "") :
    (generateImagesStart s).2 = [⟨t.id, s.selectedImageFolder⟩] ∧
    generateButtonDisabled s = true := by
  simp [generateImagesStart, ht, hf, generateButtonDisabled, hg]

/-- Witness for the amended C7 at the concrete in-flight state. -/
theorem reentrant_start_behavior_witness :
    (generateImagesStart inflightState).2 = [⟨1, "/photos"⟩] ∧
    generateButtonDisabled inflightState = true :=
  reentrant_start_behavior inflightState ⟨1, "n", "", "", "i"⟩ rfl rfl (by decide)

/-- C8 counterexample: while generating, a payload of 150 is stored as 150
rather than clamped to 100, and a payload of -5 is stored as -5 rather
than clamped to 0. -/
theorem progress_clamp_counterexample :
    generatingState.isGenerating = true ∧
    (deliverProgress generatingState 150).generationProgress = 150 ∧
    (150 : Int) ≠ 100 ∧
    (deliverProgress generatingState (-5)).generationProgress = -5 ∧
    (-5 : Int) ≠ 0 := by
  decide

/-- C8 (amended): the value stored after applying a progress update while
the job is generating on the generate screen is the payload itself,
without any clamping to the interval from 0 to 100. -/
theorem progress_stored_unclamped (s : AppState) (v : Int)
    (hm : s.currentMode = ViewMode.generate) (hg : s.isGenerating = true) :
    (deliverProgress s v).generationProgress = v := by
  simp [deliverProgress, hm]

/-- Witness for the amended C8 at the concrete generating state. -/
theorem progress_stored_unclamped_witness :
    generatingState.currentMode = ViewMode.generate ∧
    generatingState.isGenerating = true ∧
    (deliverProgress generatingState 23).generationProgress = 23 :=
  ⟨rfl, rfl, progress_stored_unclamped generatingState 23 rfl rfl⟩

/-- C9 counterexample: leaving the generate screen for the list does not
destroy the generation job: the archive path, the stored progress and the
selected folder all survive the transition. -/
theorem back_to_list_counterexample :
    (switchToListMode postGenState).1.archivePath = "/out/archive.zip" ∧
    (switchToListMode postGenState).1.generationProgress = 60 ∧
    (switchToListMode postGenState).1.selectedImageFolder = "/photos" := by
  decide

/-- C9 (amended): every transition from a non-list screen back to the list
discards the draft (form fields, editing target, crop rectangles, uploaded
image) and triggers a reload of the template collection, while the
generation-job fields and the generate-screen selections are preserved,
not destroyed. -/
theorem back_to_list_behavior (s : AppState) (h : s.currentMode ≠ ViewMode.list) :
    (switchToListMode s).1.currentMode = ViewMode.list ∧
    (switchToListMode s).1.formData = ⟨"", "", "", ""⟩ ∧
    (switchToListMode s).1.editingTemplate = none ∧
    (switchToListMode s).1.uploadedImage = none ∧
    (switchToListMode s).1.cropRect = ⟨0, 0, 0, 0⟩ ∧
    (switchToListMode s).1.cropNumberRect = ⟨0, 0, 0, 0⟩ ∧
    (switchToListMode s).2 = [StoreCall.getPhotoTemplates] ∧
    (switchToListMode s).1.generationProgress = s.generationProgress ∧
    (switchToListMode s).1.isGenerating = s.isGenerating ∧
    (switchToListMode s).1.archivePath = s.archivePath ∧
    (switchToListMode s).1.selectedTemplate = s.selectedTemplate ∧
    (switchToListMode s).1.selectedImageFolder = s.selectedImageFolder := by
  simp [switchToListMode, resetForm, h]

/-- Witness for the amended C9 at the concrete post-generation state. -/
theorem back_to_list_behavior_witness :
    postGenState.currentMode ≠ ViewMode.list ∧
    (switchToListMode postGenState).1.currentMode = ViewMode.list ∧
    (switchToListMode postGenState).2 = [StoreCall.getPhotoTemplates] ∧
    (switchToListMode postGenState).1.archivePath = postGenState.archivePath := by
  have h := back_to_list_behavior postGenState (by decide)
  exact ⟨by decide, h.1, h.2.2.2.2.2.2.1, h.2.2.2.2.2.2.2.2.2.1⟩

/-- C10: a template with an empty `template_img` skips both crop parses, so
both regions keep their prior values whatever the stored crop strings; and
within hydration, an empty crop string is never parsed and leaves its
region at its prior value instead of resetting it. -/
theorem hydrate_empty_skips (s : AppState) (t : PhotoTemplate) :
    (t.template_img = "" →
      (switchToEditMode s t).cropRect = s.cropRect ∧
      (switchToEditMode s t).cropNumberRect = s.cropNumberRect) ∧
    (t.crop_photo = "" → (switchToEditMode s t).cropRect = s.cropRect) ∧
    (t.crop_number = "" → (switchToEditMode s t).cropNumberRect = s.cropNumberRect) := by
  refine ⟨fun hi => ?_, fun hp => ?_, fun hn => ?_⟩
  · simp [switchToEditMode, hi]
  · by_cases hi : t.template_img = ""
    · simp [switchToEditMode, hi]
    · by_cases hn : t.crop_number = ""
      · simp [switchToEditMode, hi, hp, hn]
      · cases hd : deserializeRect t.crop_number <;>
          simp [switchToEditMode, hi, hp, hn, hd]
  · by_cases hi : t.template_img = ""
    · simp [switchToEditMode, hi]
    · by_cases hp : t.crop_photo = ""
      · simp [switchToEditMode, hi, hp, hn]
      · cases hd : deserializeRect t.crop_photo <;>
          simp [switchToEditMode, hi, hp, hn, hd]

/-- Witness for C10: an empty image path preserves the Photo region even
with junk crop strings, and an empty crop string preserves its region when
the image path is present. -/
theorem hydrate_empty_skips_witness :
    (switchToEditMode initState ⟨1, "n", "junk1", "junk2", ""⟩).cropRect =
      initState.cropRect ∧
    (switchToEditMode initState ⟨1, "n", "", "", "img.png"⟩).cropNumberRect =
      initState.cropNumberRect := by
  constructor
  · exact ((hydrate_empty_skips initState ⟨1, "n", "junk1", "junk2", ""⟩).1 rfl).1
  · exact (hydrate_empty_skips initState ⟨1, "n", "", "", "img.png"⟩).2.2 rfl
